import Mathlib

/-!
Shallow embedding of the `control_plane` package: the tenant-scoped Graph
dispatcher (`graph_client.py`), the credential resolver (`auth.py`,
`config.py`), the audit ring buffer (`audit.py`) and the orchestrator's
correlation-id handling (`tenant_manager.py`).

Python `Optional[str]` fields are `Option String`; Python truthiness of an
optional string (`if self.env:`) is false both for `None` and for the empty
string, and is modelled explicitly at each use site.  External effects
(environment variables, MSAL token results, the certificate file, the mocked
HTTP transport, `uuid.uuid4()`) are inputs to the model.  Numeric waits are
rationals: every value the code manipulates (1.0, doubling, `min _ 30`,
parsed `Retry-After` decimals) is exact in `ℚ`.
-/

namespace ControlPlane

/-! ### config.py — `SecretRef.resolve` -/

/-- `SecretRef` (config.py lines 11-47): a reference to a secret's location.
All three fields are `Optional[str]` in the source. -/
structure SecretRef where
  env : Option String := none
  value : Option String := none
  keyVaultSecretUri : Option String := none
deriving DecidableEq

/-- The distinct `ValueError` raise sites of `SecretRef.resolve`
(config.py lines 39, 43-46, 47). -/
inductive ResolveError where
  | envNotSet (name : String)
  | keyVaultUnimplemented
  | noSecretRef
deriving DecidableEq

/-- The `if self.key_vault_secret_uri:` branch and the final raise of
`SecretRef.resolve` (config.py lines 42-47).  A `some ""` URI is falsy in
Python, so it falls through to the final `ValueError`. -/
def kvBranch (r : SecretRef) : Except ResolveError String :=
  match r.keyVaultSecretUri with
  | some u => if u = "" then .error .noSecretRef else .error .keyVaultUnimplemented
  | none => .error .noSecretRef

/-- The `if self.value:` branch of `SecretRef.resolve` (config.py lines
40-41): a `some ""` inline value is falsy and falls through. -/
def valueBranch (r : SecretRef) : Except ResolveError String :=
  match r.value with
  | some v => if v = "" then kvBranch r else .ok v
  | none => kvBranch r

/-- `SecretRef.resolve` (config.py lines 34-47).  `getenv` models
`os.getenv`.  `if self.env:` is truthy only for a non-empty name; inside the
branch, `if env_value:` also treats a variable set to the empty string as
unset. -/
def SecretRef.resolve (getenv : String → Option String) (r : SecretRef) :
    Except ResolveError String :=
  match r.env with
  | some name =>
    if name = "" then valueBranch r
    else
      match getenv name with
      | some v => if v = "" then .error (.envNotSet name) else .ok v
      | none => .error (.envNotSet name)
  | none => valueBranch r

/-! ### config.py — auth variants -/

/-- The closed `AuthConfig` union (config.py lines 50-91): exactly the three
variants `ClientSecretAuth`, `CertificateAuth`, `ManagedIdentityAuth`. -/
inductive AuthCfg where
  | clientSecret (clientId : String) (clientSecret : SecretRef) (authorityHost : String)
  | certificate (clientId : String) (certificatePath : String)
      (certificatePassword : Option SecretRef) (authorityHost : String)
  | managedIdentity (clientId : Option String)
deriving DecidableEq

/-! ### auth.py — `GraphAuthenticator.acquire_token` -/

/-- A Python MSAL token-result dict as `acquire_token` inspects it:
its truthiness (`if not result`), the `access_token` field when present, and
`json.dumps(result)` used in the failure message. -/
structure MsalResult where
  truthy : Bool
  accessToken : Option String
  raw : String
deriving DecidableEq

/-- `GraphAuthenticator._extract_token` (auth.py lines 83-87):
`if not result or "access_token" not in result: raise RuntimeError(...)`,
otherwise return `result["access_token"]` — whatever string it holds. -/
def extractToken (r : MsalResult) : Except String String :=
  if !r.truthy then .error r.raw
  else
    match r.accessToken with
    | none => .error r.raw
    | some t => .ok t

/-- The external world `acquire_token` interacts with: the process
environment, the MSAL silent and fresh acquisition results, the outcome of
reading the certificate file, and the managed-identity platform token
(`credential.get_token(...).token`, used as-is). -/
structure AuthEnv where
  getenv : String → Option String
  silentResult : MsalResult
  freshResult : MsalResult
  certRead : Except String String
  miToken : String

/-- `result = app.acquire_token_silent(...); if not result: result =
app.acquire_token_for_client(...)` (auth.py lines 40-42 and 60-62). -/
def confidentialResult (e : AuthEnv) : MsalResult :=
  if e.silentResult.truthy then e.silentResult else e.freshResult

/-- The error outcomes of `acquire_token`, one per distinct raise path:
secret/password resolution failure propagating from `SecretRef.resolve`, the
`RuntimeError` of `_extract_token`, and the `RuntimeError` of
`_load_certificate` (auth.py line 98). -/
inductive AuthErr where
  | secretResolve (e : ResolveError)
  | tokenAcquisitionFailed (raw : String)
  | certificateRead (msg : String)
deriving DecidableEq

/-- `GraphAuthenticator.acquire_token` (auth.py lines 30-81), dispatching on
the variant.  The `acquired_app_token` audit emission on success is a pure
side effect and is not modelled here.  For `CertificateAuth`,
`_load_certificate` first resolves the optional password (a pydantic model
instance is always truthy, so `some ref` always resolves) and then reads the
file; either failure propagates.  For `ManagedIdentityAuth` the platform
token is returned as-is with no inspection. -/
def acquireToken (e : AuthEnv) (cfg : AuthCfg) : Except AuthErr String :=
  match cfg with
  | .clientSecret _ secretRef _ =>
    match secretRef.resolve e.getenv with
    | .error err => .error (.secretResolve err)
    | .ok _ =>
      match extractToken (confidentialResult e) with
      | .error raw => .error (.tokenAcquisitionFailed raw)
      | .ok t => .ok t
  | .certificate _ _ passwordRef _ =>
    let password : Except AuthErr (Option String) :=
      match passwordRef with
      | some ref =>
        match ref.resolve e.getenv with
        | .error err => .error (.secretResolve err)
        | .ok p => .ok (some p)
      | none => .ok none
    match password with
    | .error err => .error err
    | .ok _ =>
      match e.certRead with
      | .error msg => .error (.certificateRead msg)
      | .ok _ =>
        match extractToken (confidentialResult e) with
        | .error raw => .error (.tokenAcquisitionFailed raw)
        | .ok t => .ok t
  | .managedIdentity _ => .ok e.miToken

/-! ### graph_client.py — the tenant-scoped dispatcher -/

/-- The value of a `Retry-After` response header as `float(retry_after)`
sees it: a finite decimal (exact in `ℚ`) or an unparseable string
(`ValueError`). -/
inductive RetryAfterVal where
  | num (q : ℚ)
  | malformed
deriving DecidableEq

/-- A mocked HTTP response: status code, optional `Retry-After` header, and
`response.text`. -/
structure Response where
  status : Nat
  retryAfter : Option RetryAfterVal := none
  text : String := ""
deriving DecidableEq

/-- `GraphClient._get_retry_after_seconds` (graph_client.py lines 85-92):
`None` when the header is absent or fails to parse as a float, otherwise the
parsed number. -/
def getRetryAfterSeconds (r : Response) : Option ℚ :=
  match r.retryAfter with
  | none => none
  | some (.num q) => some q
  | some .malformed => none

/-- `retry_after = self._get_retry_after_seconds(response) or backoff`
(graph_client.py line 53): Python `or` falls back to `backoff` both when the
parse yields `None` and when it yields the falsy `0.0`. -/
def computeWait (r : Response) (backoff : ℚ) : ℚ :=
  match getRetryAfterSeconds r with
  | some q => if q = 0 then backoff else q
  | none => backoff

/-- `response.status_code in (429, 503, 504)` (graph_client.py line 52). -/
def isTransient (status : Nat) : Bool :=
  status = 429 || status = 503 || status = 504

/-- The audit events `GraphClient.request` itself emits (graph_client.py
lines 54-60, 66-72, 75-80), with the structured fields each call site
passes. -/
inductive Event where
  | graphThrottled (tenantId : String) (status : Nat) (retryAfter : ℚ) (attempt : Nat)
  | graphRequestFailed (tenantId : String) (status : Nat) (url : String) (body : String)
  | graphRequestSucceeded (tenantId : String) (status : Nat) (url : String)
deriving DecidableEq

/-- Whether an event is a `graph_request_succeeded` record. -/
def Event.isSucceeded : Event → Bool
  | .graphRequestSucceeded _ _ _ => true
  | _ => false

/-- How `request` terminates: returning the response of a successful
attempt, raising via `response.raise_for_status()` (which always raises in
the `status_code >= 400` branch — the spec's `GraphRequestError`), or
raising `RuntimeError("Maximum retry attempts exceeded...")` after the loop
(the spec's `RetryExhaustedError`).  `noMoreResponses` marks a mocked
transport that ran out of scripted responses before the loop finished. -/
inductive ReqOutcome where
  | success (r : Response) (attempt : Nat)
  | graphRequestError (status : Nat) (body : String)
  | retryExhausted
  | noMoreResponses
deriving DecidableEq

/-- The observable trace of the retry loop: terminal outcome, audit events
in emission order, `time.sleep` arguments in order, and the number of HTTP
attempts issued. -/
structure LoopResult where
  outcome : ReqOutcome
  events : List Event
  sleeps : List ℚ
  attempts : Nat
deriving DecidableEq

/-- The `for attempt in range(1, self.max_retries + 2):` loop of
`GraphClient.request` (graph_client.py lines 50-83).  `fuel` is the number
of loop iterations remaining (initially `max_retries + 1`); each iteration
consumes the next mocked response.  Transient statuses (429/503/504) emit
`graph_throttled`, sleep the computed wait, double the backoff capped at 30
and continue; other `>= 400` statuses emit `graph_request_failed` and raise;
`< 400` emits `graph_request_succeeded` and returns.  Falling off the loop
raises (`retryExhausted`). -/
def requestLoop (tenantId url : String) (attempt fuel : Nat) (backoff : ℚ)
    (responses : List Response) : LoopResult :=
  match fuel with
  | 0 => ⟨.retryExhausted, [], [], 0⟩
  | fuel' + 1 =>
    match responses with
    | [] => ⟨.noMoreResponses, [], [], 0⟩
    | r :: rest =>
      if isTransient r.status then
        let wait := computeWait r backoff
        let tail := requestLoop tenantId url (attempt + 1) fuel'
          (if backoff * 2 ≤ 30 then backoff * 2 else 30) rest
        ⟨tail.outcome,
         .graphThrottled tenantId r.status wait attempt :: tail.events,
         wait :: tail.sleeps,
         tail.attempts + 1⟩
      else if r.status ≥ 400 then
        ⟨.graphRequestError r.status r.text,
         [.graphRequestFailed tenantId r.status url r.text], [], 1⟩
      else
        ⟨.success r attempt,
         [.graphRequestSucceeded tenantId r.status url], [], 1⟩

/-- `scopes = scopes or self.tenant_config.default_scopes` (graph_client.py
line 45): `None` and the empty collection are both falsy. -/
def effectiveScopes (supplied : Option (List String)) (defaults : List String) :
    List String :=
  match supplied with
  | none => defaults
  | some s => if s = [] then defaults else s

/-- First-match lookup in a header association list (Python dict access). -/
def lookupHdr : List (String × String) → String → Option String
  | [], _ => none
  | (k', v') :: rest, k => if k' = k then some v' else lookupHdr rest k

/-- `headers.update({key: val})` for a single key on a Python dict: replace
the value in place if the key exists, else append.  Caller dicts have unique
keys, so replacing the first occurrence is dict semantics. -/
def dictInsert : List (String × String) → String → String → List (String × String)
  | [], k, v => [(k, v)]
  | (k', v') :: rest, k, v =>
    if k' = k then (k, v) :: rest else (k', v') :: dictInsert rest k v

/-- The full observable behaviour of one `GraphClient.request` invocation. -/
structure RequestRun where
  scopesUsed : List String
  headers : List (String × String)
  tokenAcquisitions : Nat
  outcome : ReqOutcome
  events : List Event
  sleeps : List ℚ
  attempts : Nat
deriving DecidableEq

/-- `GraphClient.request` (graph_client.py lines 38-83) against a mocked
response sequence.  The effective scopes are computed by the falsy-or
(line 45); the caller headers are merged with the single
`Authorization: Bearer <token>` entry via `headers.update(...)` (lines
46-47) — this happens once, before the loop, so exactly one token is
acquired per invocation and the same headers are reused on every attempt;
then the retry loop runs with `backoff = 1.0` and `max_retries + 1`
iterations. -/
def request (tenantId url : String) (maxRetries : Nat) (defaults : List String)
    (scopes : Option (List String)) (callerHeaders : List (String × String))
    (token : String) (responses : List Response) : RequestRun :=
  let loop := requestLoop tenantId url 1 (maxRetries + 1) 1 responses
  { scopesUsed := effectiveScopes scopes defaults
    headers := dictInsert callerHeaders "Authorization" ("Bearer " ++ token)
    tokenAcquisitions := 1
    outcome := loop.outcome
    events := loop.events
    sleeps := loop.sleeps
    attempts := loop.attempts }

/-! ### audit.py — `InMemoryAuditStore` ring buffer -/

/-- `InMemoryAuditStore.append` (audit.py lines 30-32): `appendleft` on a
`deque(maxlen=cap)` puts the new event at the front and evicts from the
back once `cap` is exceeded. -/
def ringAppend (cap : Nat) (buf : List α) (e : α) : List α :=
  (e :: buf).take cap

/-- `InMemoryAuditStore.list` (audit.py lines 34-36): the first `limit`
elements of the deque, newest first. -/
def ringList (buf : List α) (limit : Nat) : List α :=
  buf.take limit

/-! ### tenant_manager.py — `run_operation` correlation ids -/

/-- `correlation_id = correlation_id or str(uuid.uuid4())`
(tenant_manager.py line 60): `None` and the falsy empty string are both
replaced by the fresh uuid. -/
def effectiveCorrelationId (supplied : Option String) (freshUuid : String) : String :=
  match supplied with
  | some c => if c = "" then freshUuid else c
  | none => freshUuid

/-- The audit events `run_operation` emits around the operation body
(tenant_manager.py lines 62 and 65). -/
inductive OpEvent where
  | operationStarted (tenantId : String) (correlationId : String)
  | operationCompleted (tenantId : String) (correlationId : String)
deriving DecidableEq

/-- `TenantManager.run_operation` (tenant_manager.py lines 54-66), projected
onto its correlation-id handling: both surrounding events carry the one
effective correlation id.  `freshUuid` models the value `str(uuid.uuid4())`
would produce in this invocation. -/
def runOperationEvents (tenantId : String) (supplied : Option String)
    (freshUuid : String) : List OpEvent :=
  let cid := effectiveCorrelationId supplied freshUuid
  [.operationStarted tenantId cid, .operationCompleted tenantId cid]

/-! ## Helper lemmas -/

theorem lookupHdr_dictInsert_self (m : List (String × String)) (k v : String) :
    lookupHdr (dictInsert m k v) k = some v := by
  induction m with
  | nil => simp [dictInsert, lookupHdr]
  | cons p rest ih =>
    obtain ⟨a, b⟩ := p
    by_cases h : a = k
    · simp [dictInsert, h, lookupHdr]
    · simp [dictInsert, h, lookupHdr, ih]

theorem lookupHdr_dictInsert_ne (m : List (String × String)) (k v k' : String)
    (h : k' ≠ k) : lookupHdr (dictInsert m k v) k' = lookupHdr m k' := by
  induction m with
  | nil => simp [dictInsert, lookupHdr, Ne.symm h]
  | cons p rest ih =>
    obtain ⟨a, b⟩ := p
    by_cases ha : a = k
    · subst ha
      simp [dictInsert, lookupHdr, Ne.symm h]
    · simp only [dictInsert, if_neg ha, lookupHdr]
      by_cases hk' : a = k'
      · simp [hk']
      · simp [hk', ih]

theorem extractToken_ok {r : MsalResult} {t : String}
    (h : extractToken r = .ok t) : r.truthy = true ∧ r.accessToken = some t := by
  cases hb : r.truthy with
  | false => simp [extractToken, hb] at h
  | true =>
    simp only [extractToken, hb, Bool.not_true, Bool.false_eq_true, if_false] at h
    cases ha : r.accessToken with
    | none => rw [ha] at h; simp at h
    | some s =>
      rw [ha] at h
      simp only [Except.ok.injEq] at h
      exact ⟨rfl, by simp [ha, h]⟩

theorem foldl_ringAppend_length_le (cap : Nat) (es : List α) :
    ∀ buf : List α, buf.length ≤ cap →
      (es.foldl (ringAppend cap) buf).length ≤ cap := by
  induction es with
  | nil => intro buf hb; simpa using hb
  | cons e es ih =>
    intro buf _
    simp only [List.foldl_cons]
    refine ih (ringAppend cap buf e) ?_
    simp only [ringAppend, List.length_take]
    exact Nat.min_le_left _ _

theorem requestLoop_all_transient (t u : String) :
    ∀ (fuel attempt : Nat) (backoff : ℚ) (responses : List Response),
      fuel ≤ responses.length →
      (∀ r ∈ responses.take fuel, isTransient r.status = true) →
      (requestLoop t u attempt fuel backoff responses).outcome = .retryExhausted ∧
        ∀ e ∈ (requestLoop t u attempt fuel backoff responses).events,
          e.isSucceeded = false := by
  intro fuel
  induction fuel with
  | zero =>
    intro attempt backoff responses _ _
    simp [requestLoop]
  | succ n ih =>
    intro attempt backoff responses hlen htr
    cases responses with
    | nil => simp at hlen
    | cons r rest =>
      have hr : isTransient r.status = true := htr r (by simp)
      have hlen' : n ≤ rest.length := by simpa using hlen
      have htr' : ∀ x ∈ rest.take n, isTransient x.status = true := by
        intro x hx
        refine htr x ?_
        simp only [List.take_succ_cons, List.mem_cons]
        exact Or.inr hx
      have ihr := ih (attempt + 1) (if backoff * 2 ≤ 30 then backoff * 2 else 30)
        rest hlen' htr'
      refine ⟨?_, ?_⟩
      · simp only [requestLoop, hr, if_true]
        exact ihr.1
      · intro e he
        simp only [requestLoop, hr, if_true, List.mem_cons] at he
        rcases he with he | he
        · simp [he, Event.isSucceeded]
        · exact ihr.2 e he

/-! ## Claims about the dispatcher retry loop -/

/-- C1 counterexample: on the mocked sequence
`[429 (Retry-After: 2), 429 (no header), 200]` with `max_retries = 3`, the
dispatcher does NOT sleep `2` then `1`: the backoff has already doubled to
`2` by the second throttled attempt, because
`backoff = min(backoff * 2, 30)` runs after every throttled attempt,
header-advised or not. -/
theorem c1_counterexample :
    (request "contoso" "https://graph/users" 3 ["scope"] none [] "tok"
      [⟨429, some (.num 2), ""⟩, ⟨429, none, ""⟩, ⟨200, none, ""⟩]).sleeps ≠
      [2, 1] := by
  with_unfolding_all decide

/-- C1 (amended): on the mocked sequence
`[429 (Retry-After: 2), 429 (no header), 200]` with `max_retries = 3`, each
throttled attempt's wait prefers the parseable `Retry-After` and otherwise
uses the current backoff; the dispatcher sleeps `2` (header), then `2` (the
backoff, doubled from 1 after the first throttled attempt), and returns the
200 response on the third attempt, recording exactly two `graph_throttled`
events followed by one `graph_request_succeeded` event, in that order. -/
theorem c1_throttle_trace :
    (request "contoso" "https://graph/users" 3 ["scope"] none [] "tok"
        [⟨429, some (.num 2), ""⟩, ⟨429, none, ""⟩, ⟨200, none, ""⟩]).sleeps =
        [2, 2] ∧
    (request "contoso" "https://graph/users" 3 ["scope"] none [] "tok"
        [⟨429, some (.num 2), ""⟩, ⟨429, none, ""⟩, ⟨200, none, ""⟩]).outcome =
        .success ⟨200, none, ""⟩ 3 ∧
    (request "contoso" "https://graph/users" 3 ["scope"] none [] "tok"
        [⟨429, some (.num 2), ""⟩, ⟨429, none, ""⟩, ⟨200, none, ""⟩]).events =
        [.graphThrottled "contoso" 429 2 1,
         .graphThrottled "contoso" 429 2 2,
         .graphRequestSucceeded "contoso" 200 "https://graph/users"] := by
  with_unfolding_all decide

/-- C2 counterexample: a run that is throttled once (503 then 200) issues
two HTTP attempts but acquires only one token — `_auth_header` is called
once, before the retry loop, so the dispatcher does NOT re-acquire a bearer
token on the retried attempt. -/
theorem c2_counterexample :
    (request "contoso" "https://graph/users" 3 ["scope"] none [] "tok"
        [⟨503, none, ""⟩, ⟨200, none, ""⟩]).attempts = 2 ∧
    (request "contoso" "https://graph/users" 3 ["scope"] none [] "tok"
        [⟨503, none, ""⟩, ⟨200, none, ""⟩]).tokenAcquisitions = 1 ∧
    (1 : Nat) ≠ 2 := by
  with_unfolding_all decide

/-- C2 (amended): for every request execution, the dispatcher acquires the
bearer token exactly once — before the first attempt — and reuses the same
`Authorization` header on every retried attempt; it never re-acquires
mid-retry. -/
theorem c2_token_acquired_once (t u : String) (maxRetries : Nat)
    (defaults : List String) (scopes : Option (List String))
    (callerHeaders : List (String × String)) (token : String)
    (responses : List Response) :
    (request t u maxRetries defaults scopes callerHeaders token
      responses).tokenAcquisitions = 1 := rfl

/-- C3: when all of the first `max_retries + 1` attempts draw a
throttled/transient status, the dispatcher exhausts the attempt budget and
raises (`RetryExhaustedError`, the `RuntimeError` after the loop), recording
no `graph_request_succeeded` event and never returning the last throttled
response. -/
theorem c3_retry_exhausted (t u : String) (maxRetries : Nat)
    (defaults : List String) (scopes : Option (List String))
    (callerHeaders : List (String × String)) (token : String)
    (responses : List Response)
    (hlen : maxRetries + 1 ≤ responses.length)
    (htr : ∀ r ∈ responses.take (maxRetries + 1), isTransient r.status = true) :
    (request t u maxRetries defaults scopes callerHeaders token
        responses).outcome = .retryExhausted ∧
      ∀ e ∈ (request t u maxRetries defaults scopes callerHeaders token
        responses).events, e.isSucceeded = false := by
  simpa only [request] using
    requestLoop_all_transient t u (maxRetries + 1) 1 1 responses hlen htr

/-- C3 witness: four consecutive 503 responses with `max_retries = 3`. -/
theorem c3_retry_exhausted_witness :
    (request "contoso" "https://graph/users" 3 ["scope"] none [] "tok"
        [⟨503, none, ""⟩, ⟨503, none, ""⟩, ⟨503, none, ""⟩, ⟨503, none, ""⟩]).outcome =
      .retryExhausted ∧
      ∀ e ∈ (request "contoso" "https://graph/users" 3 ["scope"] none [] "tok"
        [⟨503, none, ""⟩, ⟨503, none, ""⟩, ⟨503, none, ""⟩, ⟨503, none, ""⟩]).events,
        e.isSucceeded = false :=
  c3_retry_exhausted "contoso" "https://graph/users" 3 ["scope"] none [] "tok"
    [⟨503, none, ""⟩, ⟨503, none, ""⟩, ⟨503, none, ""⟩, ⟨503, none, ""⟩]
    (by decide) (by decide)

/-- C4: a first response with a non-transient error status (≥ 400 and not
429/503/504) records exactly one `graph_request_failed` event carrying the
response body, then raises immediately (`raise_for_status`, the spec's
`GraphRequestError`): one attempt, no sleeps, no success event. -/
theorem c4_hard_failure (t u : String) (maxRetries : Nat)
    (defaults : List String) (scopes : Option (List String))
    (callerHeaders : List (String × String)) (token : String)
    (r : Response) (rest : List Response)
    (htr : isTransient r.status = false) (hge : 400 ≤ r.status) :
    (request t u maxRetries defaults scopes callerHeaders token
        (r :: rest)).outcome = .graphRequestError r.status r.text ∧
    (request t u maxRetries defaults scopes callerHeaders token
        (r :: rest)).events = [.graphRequestFailed t r.status u r.text] ∧
    (request t u maxRetries defaults scopes callerHeaders token
        (r :: rest)).attempts = 1 ∧
    (request t u maxRetries defaults scopes callerHeaders token
        (r :: rest)).sleeps = [] := by
  simp [request, requestLoop, htr, hge]

/-- C4 witness: a single 404 response. -/
theorem c4_hard_failure_witness :
    (request "contoso" "https://graph/users" 3 ["scope"] none [] "tok"
        [⟨404, none, "not found"⟩]).outcome = .graphRequestError 404 "not found" ∧
    (request "contoso" "https://graph/users" 3 ["scope"] none [] "tok"
        [⟨404, none, "not found"⟩]).events =
      [.graphRequestFailed "contoso" 404 "https://graph/users" "not found"] ∧
    (request "contoso" "https://graph/users" 3 ["scope"] none [] "tok"
        [⟨404, none, "not found"⟩]).attempts = 1 ∧
    (request "contoso" "https://graph/users" 3 ["scope"] none [] "tok"
        [⟨404, none, "not found"⟩]).sleeps = [] :=
  c4_hard_failure "contoso" "https://graph/users" 3 ["scope"] none [] "tok"
    ⟨404, none, "not found"⟩ [] (by decide) (by decide)

/-! ## Claims about token acquisition and secret resolution -/

/-- `extractToken` on a result that lacks the `access_token` field fails
carrying the raw response, whatever the result's truthiness. -/
theorem extractToken_none {r : MsalResult} (h : r.accessToken = none) :
    extractToken r = .error r.raw := by
  cases hb : r.truthy <;> simp [extractToken, hb, h]

/-- C5 counterexample: a confidential-client result whose `access_token`
field holds the empty string makes `acquire_token` return `""` — the
`_extract_token` guard only checks that the field is present, not that it is
non-empty. -/
theorem c5_counterexample :
    acquireToken
      ⟨fun _ => none, ⟨false, none, "null"⟩,
        ⟨true, some "", "\x7b\"access_token\": \"\"\x7d"⟩, .ok "pem", "mi"⟩
      (.clientSecret "app-id" ⟨none, some "sekret", none⟩
        "https://login.example") = .ok "" := rfl

/-- C5 (amended): `acquire_token` never fabricates a token — any token it
returns is exactly the `access_token` field of the effective (silent-else-
fresh) confidential-client result, or the platform-provided managed-identity
token used as-is; and when the confidential result lacks the `access_token`
field it fails with an error carrying the raw response.  It can return the
empty string only when the underlying mechanism itself supplies one. -/
theorem c5_no_fabrication (e : AuthEnv) (cfg : AuthCfg) (tok : String) :
    (acquireToken e cfg = .ok tok →
      ((confidentialResult e).truthy = true ∧
        (confidentialResult e).accessToken = some tok) ∨ tok = e.miToken) ∧
    (∀ (clientId host sec : String) (secretRef : SecretRef),
      secretRef.resolve e.getenv = .ok sec →
      (confidentialResult e).accessToken = none →
      acquireToken e (.clientSecret clientId secretRef host) =
        .error (.tokenAcquisitionFailed (confidentialResult e).raw)) := by
  constructor
  · intro h
    cases cfg with
    | clientSecret a sr b =>
      left
      simp only [acquireToken] at h
      cases hr : sr.resolve e.getenv with
      | error err => rw [hr] at h; simp at h
      | ok s =>
        rw [hr] at h
        cases hx : extractToken (confidentialResult e) with
        | error raw => rw [hx] at h; simp at h
        | ok s' =>
          rw [hx] at h
          simp only [Except.ok.injEq] at h
          subst h
          exact extractToken_ok hx
    | certificate a path pw b =>
      left
      simp only [acquireToken] at h
      cases hpw : (match pw with
          | some ref =>
            match ref.resolve e.getenv with
            | .error err => Except.error (AuthErr.secretResolve err)
            | .ok p => Except.ok (some p)
          | none => Except.ok none) with
      | error err => rw [hpw] at h; simp at h
      | ok p =>
        rw [hpw] at h
        cases hc : e.certRead with
        | error msg => rw [hc] at h; simp at h
        | ok cert =>
          rw [hc] at h
          cases hx : extractToken (confidentialResult e) with
          | error raw => rw [hx] at h; simp at h
          | ok s' =>
            rw [hx] at h
            simp only [Except.ok.injEq] at h
            subst h
            exact extractToken_ok hx
    | managedIdentity a =>
      right
      simp only [acquireToken, Except.ok.injEq] at h
      exact h.symm
  · intro clientId host sec secretRef hres hnone
    simp only [acquireToken, hres, extractToken_none hnone]

/-- C5 witness: the no-fabrication theorem applied to a silent result
carrying token `"T"`, and to a fresh result lacking the `access_token`
field, discharging every hypothesis at concrete environments. -/
theorem c5_no_fabrication_witness :
    (((confidentialResult ⟨fun _ => none, ⟨true, some "T", "raw1"⟩,
        ⟨false, none, "null"⟩, .ok "pem", "mi"⟩).truthy = true ∧
      (confidentialResult ⟨fun _ => none, ⟨true, some "T", "raw1"⟩,
        ⟨false, none, "null"⟩, .ok "pem", "mi"⟩).accessToken = some "T") ∨
      "T" = (⟨fun _ => none, ⟨true, some "T", "raw1"⟩,
        ⟨false, none, "null"⟩, .ok "pem", "mi"⟩ : AuthEnv).miToken) ∧
    acquireToken
        ⟨fun _ => none, ⟨false, none, "null"⟩,
          ⟨true, none, "\x7b\"error\": \"x\"\x7d"⟩, .ok "pem", "mi"⟩
        (.clientSecret "app" ⟨none, some "s", none⟩ "https://login.example") =
      .error (.tokenAcquisitionFailed
        (confidentialResult ⟨fun _ => none, ⟨false, none, "null"⟩,
          ⟨true, none, "\x7b\"error\": \"x\"\x7d"⟩, .ok "pem", "mi"⟩).raw) :=
  ⟨(c5_no_fabrication ⟨fun _ => none, ⟨true, some "T", "raw1"⟩,
      ⟨false, none, "null"⟩, .ok "pem", "mi"⟩
    (.clientSecret "app" ⟨none, some "s", none⟩ "https://login.example")
    "T").1 rfl,
   (c5_no_fabrication ⟨fun _ => none, ⟨false, none, "null"⟩,
      ⟨true, none, "\x7b\"error\": \"x\"\x7d"⟩, .ok "pem", "mi"⟩
    (.clientSecret "app" ⟨none, some "s", none⟩ "https://login.example")
    "T").2 "app" "https://login.example" "s" ⟨none, some "s", none⟩ rfl rfl⟩

/-- C6 counterexample: a `SecretRef` whose `value` field is set to the empty
string does NOT resolve to that value — the Python truthiness check
`if self.value:` treats `""` as absent, so resolution falls through and
raises the final `ValueError` instead of returning `""`. -/
theorem c6_counterexample :
    SecretRef.resolve (fun _ => none) ⟨none, some "", none⟩ =
      .error .noSecretRef := rfl

/-- C6 (amended): with `env` set to a non-empty name of an unset variable,
resolution always fails; with `env` absent (or empty, hence falsy) and
`value` set to a non-empty string, resolution returns exactly that value;
with neither `env` nor `value` set and only `key_vault_secret_uri` set,
resolution always fails (unimplemented-path contract).  An empty-string
`value` is treated as absent by the truthiness check, and a set `env`
takes priority over `value`. -/
theorem c6_secret_ref (getenv : String → Option String) (r : SecretRef) :
    (∀ name, r.env = some name → name ≠ "" → getenv name = none →
      r.resolve getenv = .error (.envNotSet name)) ∧
    (∀ v, (r.env = none ∨ r.env = some "") → r.value = some v → v ≠ "" →
      r.resolve getenv = .ok v) ∧
    (∀ u s, r.env = none → r.value = none → r.keyVaultSecretUri = some u →
      r.resolve getenv ≠ .ok s) := by
  refine ⟨?_, ?_, ?_⟩
  · intro name h1 h2 h3
    simp [SecretRef.resolve, h1, h2, h3]
  · intro v henv hv hne
    rcases henv with henv | henv <;>
      simp [SecretRef.resolve, valueBranch, henv, hv, hne]
  · intro u s h1 h2 h3
    simp only [SecretRef.resolve, h1, valueBranch, h2, kvBranch, h3]
    by_cases hu : u = "" <;> simp [hu]

/-- C6 witness: the three clauses at concrete secret references, with
`os.getenv` returning nothing. -/
theorem c6_secret_ref_witness :
    SecretRef.resolve (fun _ => none) ⟨some "MY_SECRET", none, none⟩ =
        .error (.envNotSet "MY_SECRET") ∧
    SecretRef.resolve (fun _ => none) ⟨none, some "inline-dev", none⟩ =
        .ok "inline-dev" ∧
    SecretRef.resolve (fun _ => none)
        ⟨none, none, some "https://vault.example/secret"⟩ ≠ .ok "anything" :=
  ⟨(c6_secret_ref (fun _ => none) ⟨some "MY_SECRET", none, none⟩).1
      "MY_SECRET" rfl (by decide) rfl,
   (c6_secret_ref (fun _ => none) ⟨none, some "inline-dev", none⟩).2.1
      "inline-dev" (Or.inl rfl) rfl (by decide),
   (c6_secret_ref (fun _ => none)
      ⟨none, none, some "https://vault.example/secret"⟩).2.2
      "https://vault.example/secret" "anything" rfl rfl rfl⟩

/-! ## Claims about the audit ring buffer and the orchestrator -/

/-- C7: the ring buffer never holds more than its capacity, and with
capacity 3 and events E1..E5 appended in order, `list(10)` returns exactly
`[E5, E4, E3]` — most recent first, oldest evicted. -/
theorem c7_ring_buffer {α : Type} (cap : Nat) (es : List α)
    (e1 e2 e3 e4 e5 : α) :
    (es.foldl (ringAppend cap) []).length ≤ cap ∧
    ringList ([e1, e2, e3, e4, e5].foldl (ringAppend 3) []) 10 =
      [e5, e4, e3] :=
  ⟨foldl_ringAppend_length_le cap es [] (Nat.zero_le cap), rfl⟩

/-- C8 counterexample: an explicitly supplied empty-string correlation id is
NOT used verbatim — `correlation_id or str(uuid.uuid4())` treats `""` as
absent and both events carry the fresh uuid instead. -/
theorem c8_counterexample :
    runOperationEvents "contoso" (some "") "3f2a-uuid" =
      [.operationStarted "contoso" "3f2a-uuid",
       .operationCompleted "contoso" "3f2a-uuid"] ∧
    ("" : String) ≠ "3f2a-uuid" := ⟨rfl, by decide⟩

/-- C8 (amended): `run_operation` without a correlation id uses the freshly
generated uuid in both the `operation_started` and `operation_completed`
events, and distinct generated uuids give distinct correlation ids across
calls; a supplied NON-EMPTY correlation id is used verbatim in both events
(an empty string is treated as absent). -/
theorem c8_correlation_id (t c f f1 f2 : String) :
    (c ≠ "" → runOperationEvents t (some c) f =
      [.operationStarted t c, .operationCompleted t c]) ∧
    (runOperationEvents t none f =
      [.operationStarted t f, .operationCompleted t f]) ∧
    (f1 ≠ f2 →
      effectiveCorrelationId none f1 ≠ effectiveCorrelationId none f2) := by
  refine ⟨?_, rfl, ?_⟩
  · intro h
    simp [runOperationEvents, effectiveCorrelationId, h]
  · intro h
    simpa [effectiveCorrelationId] using h

/-- C8 witness: a non-empty explicit id reused verbatim, and two distinct
fresh uuids yielding distinct correlation ids. -/
theorem c8_correlation_id_witness :
    runOperationEvents "contoso" (some "cid-42") "u0" =
      [.operationStarted "contoso" "cid-42",
       .operationCompleted "contoso" "cid-42"] ∧
    effectiveCorrelationId none "uuid-a" ≠ effectiveCorrelationId none "uuid-b" :=
  ⟨(c8_correlation_id "contoso" "cid-42" "u0" "x" "y").1 (by decide),
   (c8_correlation_id "contoso" "cid-42" "u0" "uuid-a" "uuid-b").2.2 (by decide)⟩

/-! ## Claims about header merging and scope defaulting -/

/-- C9: the dispatcher's issued call carries `Authorization: Bearer <token>`
merged into the caller-supplied headers; every non-`Authorization` caller
header keeps its value, and no caller-supplied header key is dropped. -/
theorem c9_headers_preserved (t u : String) (maxRetries : Nat)
    (defaults : List String) (scopes : Option (List String))
    (callerHeaders : List (String × String)) (token : String)
    (responses : List Response) (k : String) :
    lookupHdr (request t u maxRetries defaults scopes callerHeaders token
        responses).headers "Authorization" = some ("Bearer " ++ token) ∧
    (k ≠ "Authorization" →
      lookupHdr (request t u maxRetries defaults scopes callerHeaders token
        responses).headers k = lookupHdr callerHeaders k) ∧
    (lookupHdr callerHeaders k ≠ none →
      lookupHdr (request t u maxRetries defaults scopes callerHeaders token
        responses).headers k ≠ none) := by
  have hh : (request t u maxRetries defaults scopes callerHeaders token
      responses).headers =
      dictInsert callerHeaders "Authorization" ("Bearer " ++ token) := rfl
  refine ⟨?_, ?_, ?_⟩
  · rw [hh]
    exact lookupHdr_dictInsert_self _ _ _
  · intro hk
    rw [hh]
    exact lookupHdr_dictInsert_ne _ _ _ _ hk
  · intro hne
    by_cases hk : k = "Authorization"
    · subst hk
      rw [hh, lookupHdr_dictInsert_self]
      simp
    · rw [hh, lookupHdr_dictInsert_ne _ _ _ _ hk]
      exact hne

/-- C9 witness: a caller-supplied `X-Custom` header survives the merge. -/
theorem c9_headers_preserved_witness :
    lookupHdr (request "contoso" "https://graph/users" 3 ["scope"] none
        [("X-Custom", "1")] "tok" []).headers "Authorization" =
      some ("Bearer " ++ "tok") ∧
    lookupHdr (request "contoso" "https://graph/users" 3 ["scope"] none
        [("X-Custom", "1")] "tok" []).headers "X-Custom" =
      lookupHdr [("X-Custom", "1")] "X-Custom" ∧
    lookupHdr (request "contoso" "https://graph/users" 3 ["scope"] none
        [("X-Custom", "1")] "tok" []).headers "X-Custom" ≠ none :=
  ⟨(c9_headers_preserved "contoso" "https://graph/users" 3 ["scope"] none
      [("X-Custom", "1")] "tok" [] "X-Custom").1,
   (c9_headers_preserved "contoso" "https://graph/users" 3 ["scope"] none
      [("X-Custom", "1")] "tok" [] "X-Custom").2.1 (by decide),
   (c9_headers_preserved "contoso" "https://graph/users" 3 ["scope"] none
      [("X-Custom", "1")] "tok" [] "X-Custom").2.2 (by decide)⟩

/-- C10: an explicitly supplied but empty scopes collection is silently
replaced by the tenant's configured default scopes (`scopes or
default_scopes` cannot distinguish empty from absent), so — the defaults
being non-empty by the `TenantConfig` validator — a token is never requested
for an empty scope set. -/
theorem c10_empty_scopes_defaulted (t u : String) (maxRetries : Nat)
    (defaults : List String) (scopes : Option (List String))
    (callerHeaders : List (String × String)) (token : String)
    (responses : List Response) (hne : defaults ≠ []) :
    (request t u maxRetries defaults (some []) callerHeaders token
        responses).scopesUsed = defaults ∧
    (request t u maxRetries defaults scopes callerHeaders token
        responses).scopesUsed ≠ [] := by
  constructor
  · rfl
  · have hs : (request t u maxRetries defaults scopes callerHeaders token
        responses).scopesUsed = effectiveScopes scopes defaults := rfl
    rw [hs]
    cases scopes with
    | none => simpa [effectiveScopes] using hne
    | some s =>
      by_cases h0 : s = []
      · simpa [effectiveScopes, h0] using hne
      · simp only [effectiveScopes, if_neg h0]
        exact h0

/-- C10 witness: supplied empty scopes with non-empty defaults. -/
theorem c10_empty_scopes_defaulted_witness :
    (request "contoso" "https://graph/users" 3
        ["https://graph.microsoft.com/.default"] (some []) [] "tok"
        []).scopesUsed = ["https://graph.microsoft.com/.default"] ∧
    (request "contoso" "https://graph/users" 3
        ["https://graph.microsoft.com/.default"] (some []) [] "tok"
        []).scopesUsed ≠ [] :=
  c10_empty_scopes_defaulted "contoso" "https://graph/users" 3
    ["https://graph.microsoft.com/.default"] (some []) [] "tok" []
    (by decide)

end ControlPlane
